import Mathlib

/-!
Verification of the numeric core of `dummy_particles` (`force_analysis.py`).

The repository's core is three pure numpy functions:
  * `calc_vectors(p_origin, p_destination, boxdims)` — minimum-image
    displacement vectors under periodic boundary conditions;
  * `scale_box_coordinates(traj_xyz, traj_dims, ref_dims)` — per-frame
    rescaling of coordinates by the ratio of box dimensions;
  * `calc_posres_forces(traj_xyz, ref_xyz, spring_constant)` — harmonic
    restraint forces `k * (traj - ref)`.

Embedding choices:
  * A numpy `ndarray` is modelled as `NDArray`: a shape (list of axis sizes)
    together with a total index function `List Nat → ℚ`.  Entries at indices
    outside the shape are irrelevant junk; the functions below compute every
    entry by the same componentwise formula that numpy broadcasting produces
    on the in-shape entries.
  * Machine floats are modelled as exact rationals (the spec speaks of real
    arithmetic; every operation used — subtraction, absolute value, negation,
    scalar multiply, division — maps one numpy op to one ℚ op).
  * A Python `raise ValueError(...)` is an `Except.error` carrying an error
    code; each constructor corresponds to one distinct `ValueError` message
    of the source, as noted in its doc comment.
  * For the non-mutation claim, numpy's buffer semantics are made explicit
    in a small store model (`Store`): arrays live at numeric ids, fresh
    arrays are allocated at fresh ids, and the source's in-place masked
    assignments `vecs[mask] = ...` are writes to the id holding `vecs`.
-/

namespace DummyParticles

/-- A numpy array: its shape (`a.shape` in numpy) and its entries, as a
total function from index lists to rationals.  Indices outside the shape
carry junk values that no theorem depends on. -/
structure NDArray where
  shape : List Nat
  data : List Nat → ℚ

/-- The numpy `ndim` of an array: the rank, i.e. the number of axes. -/
def NDArray.ndim (a : NDArray) : Nat := a.shape.length

/-- The numpy `shape[i]` of an array, for an index `i` known to be in range
(out-of-range accesses, which raise `IndexError` in Python, are modelled
explicitly with `List.get?` where the source can actually hit them). -/
def NDArray.dim (a : NDArray) (i : Nat) : Nat := a.shape.getD i 0

/-- The five `ValueError`s that `calc_vectors` can raise, in source order:
`originRank` = "coordinates should be nframes * nparticles * ndims",
`boxdimsRank` = "boxdims should be nframes * nparticles",
`shapeMismatch` = "input vector dimension mismatch",
`frameMismatch` = "Mismatch between number of frames in coordinates and boxdims",
`dimMismatch` = "Mismatch between number of dimensions in coordinates and boxdims". -/
inductive VecErr where
  | originRank
  | boxdimsRank
  | shapeMismatch
  | frameMismatch
  | dimMismatch
deriving DecidableEq, Repr

/-- One component of the minimum-image computation in `calc_vectors`,
exactly as the two masked in-place assignments of the source leave it
(`v` is the raw component `destination - origin`, `bdim` the box dimension
for that frame and axis):

    vecs[vecs_gt_boxdims & positive_vecs] = -(boxdims_reshaped - veclengths)[...]
    vecs[vecs_gt_boxdims & negative_vecs] =  (boxdims_reshaped - veclengths)[...]

`after_pos` is the component after the first assignment; the second
assignment then overwrites the components that are negative and beyond the
half box (the two masks are disjoint, so the order is immaterial). -/
def vec_component (v bdim : ℚ) : ℚ :=
  let after_pos := if |v| > bdim / 2 ∧ 0 < v then -(bdim - |v|) else v
  if |v| > bdim / 2 ∧ v < 0 then bdim - |v| else after_pos

/-- The function `calc_vectors(p_origin, p_destination, boxdims)` from
`force_analysis.py`.  Validation checks appear in source order; the
success branch returns the array whose `[f, p, a]` entry is
`vec_component (destination[f,p,a] - origin[f,p,a]) (boxdims[f,a])` —
`boxdims[:, np.newaxis, :]` broadcasts the box dimension of frame `f`
and axis `a` across the particle axis. -/
def calc_vectors (p_origin p_destination boxdims : NDArray) :
    Except VecErr NDArray :=
  if p_origin.ndim ≠ 3 then .error .originRank
  else if boxdims.ndim ≠ 2 then .error .boxdimsRank
  else if p_origin.shape ≠ p_destination.shape then .error .shapeMismatch
  else if p_origin.dim 0 ≠ boxdims.dim 0 then .error .frameMismatch
  else if p_origin.dim 2 ≠ boxdims.dim 1 then .error .dimMismatch
  else .ok ⟨p_origin.shape, fun idx =>
    vec_component (p_destination.data idx - p_origin.data idx)
      (boxdims.data [idx.getD 0 0, idx.getD 2 0])⟩

/-- Validity of a `calc_vectors` input triple: exactly the conjunction of
the five validation conditions of the source (rank of the position arrays
is 3, rank of the box array is 2, position shapes agree, frame counts
agree, dimension counts agree). -/
def validVecInput (p_origin p_destination boxdims : NDArray) : Prop :=
  p_origin.ndim = 3 ∧ boxdims.ndim = 2 ∧
  p_origin.shape = p_destination.shape ∧
  p_origin.dim 0 = boxdims.dim 0 ∧
  p_origin.dim 2 = boxdims.dim 1

instance (o d b : NDArray) : Decidable (validVecInput o d b) := by
  unfold validVecInput; infer_instance

/-- On valid input, `calc_vectors` succeeds and returns the componentwise
minimum-image array. -/
lemma calc_vectors_ok_of_valid (o d b : NDArray) (h : validVecInput o d b) :
    calc_vectors o d b = .ok ⟨o.shape, fun idx =>
      vec_component (d.data idx - o.data idx)
        (b.data [idx.getD 0 0, idx.getD 2 0])⟩ := by
  obtain ⟨h1, h2, h3, h4, h5⟩ := h
  simp [calc_vectors, h1, h2, h3, h4, h5]

/-- The failures of `scale_box_coordinates`:
`indexErr` models Python's `IndexError` ("tuple index out of range") when
`traj_xyz.shape[2]` or `traj_dims.shape[1]` is evaluated on an array of
too small a rank — this is not the documented `ValueError`;
`lastAxisErr` = `ValueError` "One of the inputs does not have 3 as it's final dimension size";
`frameErr` = `ValueError` "trajectory coords/dims have different frame counts". -/
inductive ScaleErr where
  | indexErr
  | lastAxisErr
  | frameErr
deriving DecidableEq, Repr

/-- The function `scale_box_coordinates(traj_xyz, traj_dims, ref_dims)` from
`force_analysis.py`.  The source's single test
`traj_xyz.shape[2] != 3 or traj_dims.shape[1] != 3 or ref_dims.shape != (3,)`
evaluates left to right with short-circuiting, so the two fallible tuple
indexings are modelled in that order with `List.get?`.  The success branch
is `traj_xyz * (traj_dims / ref_dims)[:, np.newaxis, :]`: entry `[f, p, a]`
is `traj_xyz[f,p,a] * (traj_dims[f,a] / ref_dims[a])`. -/
def scale_box_coordinates (traj_xyz traj_dims ref_dims : NDArray) :
    Except ScaleErr NDArray :=
  match traj_xyz.shape.get? 2 with
  | none => .error .indexErr
  | some s2 =>
    if s2 ≠ 3 then .error .lastAxisErr
    else
      match traj_dims.shape.get? 1 with
      | none => .error .indexErr
      | some t1 =>
        if t1 ≠ 3 ∨ ref_dims.shape ≠ [3] then .error .lastAxisErr
        else if traj_xyz.dim 0 ≠ traj_dims.dim 0 then .error .frameErr
        else .ok ⟨traj_xyz.shape, fun idx =>
          traj_xyz.data idx *
            (traj_dims.data [idx.getD 0 0, idx.getD 2 0] /
              ref_dims.data [idx.getD 2 0])⟩

/-- Validity of a `scale_box_coordinates` input triple at the documented
ranks: `traj_xyz` of rank 3, `traj_dims` of rank 2, `ref_dims` of rank 1,
all with final axis 3, and matching frame counts. -/
def validScaleInput (traj_xyz traj_dims ref_dims : NDArray) : Prop :=
  traj_xyz.ndim = 3 ∧ traj_dims.ndim = 2 ∧
  traj_xyz.dim 2 = 3 ∧ traj_dims.dim 1 = 3 ∧ ref_dims.shape = [3] ∧
  traj_xyz.dim 0 = traj_dims.dim 0

instance (t d r : NDArray) : Decidable (validScaleInput t d r) := by
  unfold validScaleInput; infer_instance

/-- A rank-3 shape has an entry at index 2. -/
lemma get?_two_of_ndim_three (a : NDArray) (h : a.ndim = 3) :
    a.shape.get? 2 = some (a.dim 2) := by
  unfold NDArray.ndim at h
  unfold NDArray.dim
  match hs : a.shape with
  | [x, y, z] => simp [List.getD]
  | [] | [x] | [x, y] => rw [hs] at h; simp at h
  | x :: y :: z :: w :: l => rw [hs] at h; simp at h

/-- A rank-2 shape has an entry at index 1. -/
lemma get?_one_of_ndim_two (a : NDArray) (h : a.ndim = 2) :
    a.shape.get? 1 = some (a.dim 1) := by
  unfold NDArray.ndim at h
  unfold NDArray.dim
  match hs : a.shape with
  | [x, y] => simp [List.getD]
  | [] | [x] => rw [hs] at h; simp at h
  | x :: y :: z :: l => rw [hs] at h; simp at h

/-- On valid input, `scale_box_coordinates` succeeds and returns the
componentwise rescaled array. -/
lemma scale_box_coordinates_ok_of_valid (t d r : NDArray)
    (h : validScaleInput t d r) :
    scale_box_coordinates t d r = .ok ⟨t.shape, fun idx =>
      t.data idx *
        (d.data [idx.getD 0 0, idx.getD 2 0] / r.data [idx.getD 2 0])⟩ := by
  obtain ⟨h1, h2, h3, h4, h5, h6⟩ := h
  rw [scale_box_coordinates, get?_two_of_ndim_three t h1,
    get?_one_of_ndim_two d h2]
  simp [h3, h4, h5, h6]

/-- The two `ValueError`s of `calc_posres_forces`:
`rankErr` = "Dimension mismatch. traj_xyz and ref_xyz must be mdtraj format xyz arrays, of dimensions n_frames * n_particles * dims, ...";
`shapeErr` = "Dimension mismatch between traj_xyz and ref_xyz". -/
inductive PosresErr where
  | rankErr
  | shapeErr
deriving DecidableEq, Repr

/-- The function `calc_posres_forces(traj_xyz, ref_xyz, spring_constant)` from
`force_analysis.py`: after the two validation checks, it returns
`spring_constant * (traj_xyz - ref_xyz)` elementwise. -/
def calc_posres_forces (traj_xyz ref_xyz : NDArray) (spring_constant : ℚ) :
    Except PosresErr NDArray :=
  if traj_xyz.ndim < 3 ∨ ref_xyz.ndim < 3 then .error .rankErr
  else if traj_xyz.shape ≠ ref_xyz.shape then .error .shapeErr
  else .ok ⟨traj_xyz.shape, fun idx =>
    spring_constant * (traj_xyz.data idx - ref_xyz.data idx)⟩

/-- Validity of a `calc_posres_forces` input pair: both arrays of rank at
least 3 with equal shapes. -/
def validPosresInput (traj_xyz ref_xyz : NDArray) : Prop :=
  3 ≤ traj_xyz.ndim ∧ traj_xyz.shape = ref_xyz.shape

instance (t r : NDArray) : Decidable (validPosresInput t r) := by
  unfold validPosresInput; infer_instance

/-- On valid input, `calc_posres_forces` succeeds and returns the
elementwise spring forces. -/
lemma calc_posres_forces_ok_of_valid (t r : NDArray) (k : ℚ)
    (h : validPosresInput t r) :
    calc_posres_forces t r k = .ok ⟨t.shape, fun idx =>
      k * (t.data idx - r.data idx)⟩ := by
  obtain ⟨h1, h2⟩ := h
  have hr : 3 ≤ r.ndim := by
    unfold NDArray.ndim at h1 ⊢
    rw [← h2]; exact h1
  simp [calc_posres_forces, h2, Nat.not_lt.mpr h1, Nat.not_lt.mpr hr]

/-- The per-component minimum-image rule as the specification words it:
for raw component `v` and box dimension `bdim`, if `|v|` is strictly
greater than `bdim / 2` and `v` is positive the result is `-(bdim - |v|)`;
if `|v|` is strictly greater than `bdim / 2` and `v` is negative the
result is `bdim - |v|`; otherwise the component is left unchanged. -/
def spec_min_image (v bdim : ℚ) : ℚ :=
  if |v| > bdim / 2 ∧ 0 < v then -(bdim - |v|)
  else if |v| > bdim / 2 ∧ v < 0 then bdim - |v|
  else v

/-- The two masked assignments of the source compute exactly the
specification's per-component rule (the two masks are disjoint, so the
assignment order does not matter). -/
lemma vec_component_eq_spec (v bdim : ℚ) :
    vec_component v bdim = spec_min_image v bdim := by
  unfold vec_component spec_min_image
  rcases lt_trichotomy v 0 with hv | hv | hv
  · simp [hv, not_lt.mpr hv.le]
  · simp [hv]
  · simp [hv, not_lt.mpr hv.le]

/-- The specification's rule is odd in the displacement component. -/
lemma spec_min_image_neg (v bdim : ℚ) :
    spec_min_image (-v) bdim = -(spec_min_image v bdim) := by
  unfold spec_min_image
  rw [abs_neg]
  by_cases hgt : |v| > bdim / 2
  · rcases lt_trichotomy v 0 with hv | hv | hv
    · rw [if_pos ⟨hgt, neg_pos.mpr hv⟩,
        if_neg (fun hc => absurd hc.2 (not_lt.mpr hv.le)),
        if_pos ⟨hgt, hv⟩]
    · subst hv; norm_num
    · rw [if_neg (fun hc => absurd hc.2 (not_lt.mpr (neg_nonpos.mpr hv.le))),
        if_pos ⟨hgt, neg_lt_zero.mpr hv⟩, if_pos ⟨hgt, hv⟩]
      ring
  · rw [if_neg (fun hc => hgt hc.1), if_neg (fun hc => hgt hc.1),
      if_neg (fun hc => hgt hc.1), if_neg (fun hc => hgt hc.1)]

/-- The corrected component is odd in the displacement component. -/
lemma vec_component_neg (v bdim : ℚ) :
    vec_component (-v) bdim = -(vec_component v bdim) := by
  rw [vec_component_eq_spec, vec_component_eq_spec, spec_min_image_neg]

/-- If the raw component is within one periodic image
(`|v| ≤ 1.5 * bdim`), the corrected component is at most half a box. -/
lemma abs_vec_component_le (v bdim : ℚ) (h : |v| ≤ 3 / 2 * bdim) :
    |vec_component v bdim| ≤ bdim / 2 := by
  rw [vec_component_eq_spec]
  unfold spec_min_image
  by_cases hgt : |v| > bdim / 2
  · rcases lt_trichotomy v 0 with hv | hv | hv
    · have habs : |v| = -v := abs_of_neg hv
      rw [if_neg (fun hc => absurd hc.2 (not_lt.mpr hv.le)),
        if_pos ⟨hgt, hv⟩, abs_le]
      rw [habs] at h hgt
      constructor <;> linarith
    · exfalso
      rw [hv] at hgt h
      simp only [abs_zero] at hgt h
      linarith
    · have habs : |v| = v := abs_of_pos hv
      rw [if_pos ⟨hgt, hv⟩, abs_le]
      rw [habs] at h hgt
      constructor <;> linarith
  · rw [if_neg (fun hc => hgt hc.1), if_neg (fun hc => hgt hc.1)]
    exact not_lt.mp hgt

/-- Evaluation rule: a positive component beyond the half box wraps to
the previous image. -/
lemma spec_min_image_of_pos_gt {v bdim : ℚ} (hv : 0 < v)
    (h : bdim / 2 < v) : spec_min_image v bdim = -(bdim - v) := by
  rw [spec_min_image, abs_of_pos hv, if_pos ⟨h, hv⟩]

/-- Evaluation rule: a component within the half box is unchanged. -/
lemma spec_min_image_of_le {v bdim : ℚ} (h : |v| ≤ bdim / 2) :
    spec_min_image v bdim = v := by
  rw [spec_min_image, if_neg (fun hc => absurd hc.1 (not_lt.mpr h)),
    if_neg (fun hc => absurd hc.1 (not_lt.mpr h))]

/-- Validity of `calc_vectors` input is symmetric in the two position
arrays. -/
lemma validVecInput_symm (o d b : NDArray) (h : validVecInput o d b) :
    validVecInput d o b := by
  obtain ⟨h1, h2, h3, h4, h5⟩ := h
  refine ⟨?_, h2, h3.symm, ?_, ?_⟩
  · unfold NDArray.ndim at h1 ⊢; rw [← h3]; exact h1
  · unfold NDArray.dim at h4 ⊢; rw [← h3]; exact h4
  · unfold NDArray.dim at h5 ⊢; rw [← h3]; exact h5

/-! Concrete fixtures, mirroring the repository's unit tests. -/

/-- A constant 2 × 2 × 3 coordinate array. -/
def constArr3 (q : ℚ) : NDArray := ⟨[2, 2, 3], fun _ => q⟩

/-- The array `boxdims = [[10, 10, 10], [9.5, 9.5, 9.5]]` from
`test_for_correct_vectors`. -/
def testBoxdims : NDArray :=
  ⟨[2, 3], fun idx => if idx.getD 0 0 = 0 then 10 else 19 / 2⟩

/-- The array `p_low`: 1 everywhere. -/
def testPLow : NDArray := constArr3 1

/-- The array `p_high`: 9.4 everywhere. -/
def testPHigh : NDArray := constArr3 (47 / 5)

/-- The array `p_mid`: 5 everywhere. -/
def testPMid : NDArray := constArr3 5

/-- The coordinates `[15, 10, 5]` of `test_scaling`, over 2 frames and
2 particles. -/
def testCoords : NDArray :=
  ⟨[2, 2, 3], fun idx =>
    if idx.getD 2 0 = 0 then 15 else if idx.getD 2 0 = 1 then 10 else 5⟩

/-- The array `traj_dims`, constant `[3, 3, 3]` per frame. -/
def testTrajDims : NDArray := ⟨[2, 3], fun _ => 3⟩

/-- The array `ref_dims = [1, 6, 3]` from `test_scaling`. -/
def testRefDims : NDArray :=
  ⟨[3], fun idx =>
    if idx.getD 0 0 = 0 then 1 else if idx.getD 0 0 = 1 then 6 else 3⟩

/-! The claims. -/

/-- C1: on every shape-valid input, each output component of
`calc_vectors` is computed independently per axis from the raw component
`v = destination - origin` and that frame's box dimension on that axis
(broadcast across particles), by the specification's rule: if
`|v| > bdim / 2` and `v > 0` the output is `-(bdim - |v|)`; if
`|v| > bdim / 2` and `v < 0` the output is `bdim - |v|`; otherwise the
output is `v` unchanged. -/
theorem calc_vectors_minimum_image (o d b : NDArray)
    (h : validVecInput o d b) :
    calc_vectors o d b = .ok ⟨o.shape, fun idx =>
      spec_min_image (d.data idx - o.data idx)
        (b.data [idx.getD 0 0, idx.getD 2 0])⟩ := by
  rw [calc_vectors_ok_of_valid o d b h]
  refine congrArg Except.ok (congrArg (NDArray.mk o.shape) ?_)
  funext idx
  exact vec_component_eq_spec _ _

/-- Witness for C1, on the inputs of `test_for_correct_vectors`:
`p_low = 1`, `p_high = 9.4`, boxes `[10,10,10]` and `[9.5,9.5,9.5]`; the
raw component `8.4` exceeds the half box and is corrected to `-1.6` in
frame 0, and `4` (from `p_mid` to `p_low` reversed sign) stays within the
half box. -/
theorem calc_vectors_minimum_image_witness :
    validVecInput testPLow testPHigh testBoxdims ∧
    calc_vectors testPLow testPHigh testBoxdims = .ok ⟨testPLow.shape,
      fun idx => spec_min_image (testPHigh.data idx - testPLow.data idx)
        (testBoxdims.data [idx.getD 0 0, idx.getD 2 0])⟩ ∧
    spec_min_image (testPHigh.data [0, 0, 0] - testPLow.data [0, 0, 0])
      (testBoxdims.data [0, 0]) = -(8 / 5) ∧
    spec_min_image (testPHigh.data [1, 1, 1] - testPLow.data [1, 1, 1])
      (testBoxdims.data [1, 1]) = -(11 / 10) ∧
    spec_min_image (testPLow.data [0, 0, 2] - testPMid.data [0, 0, 2])
      (testBoxdims.data [0, 2]) = -4 := by
  refine ⟨by decide,
    calc_vectors_minimum_image testPLow testPHigh testBoxdims (by decide),
    ?_, ?_, ?_⟩
  · show spec_min_image ((47 : ℚ) / 5 - 1) 10 = -(8 / 5)
    rw [show ((47 : ℚ) / 5 - 1) = 42 / 5 by norm_num,
      spec_min_image_of_pos_gt (by norm_num) (by norm_num)]
    norm_num
  · show spec_min_image ((47 : ℚ) / 5 - 1) (19 / 2) = -(11 / 10)
    rw [show ((47 : ℚ) / 5 - 1) = 42 / 5 by norm_num,
      spec_min_image_of_pos_gt (by norm_num) (by norm_num)]
    norm_num
  · show spec_min_image ((1 : ℚ) - 5) 10 = -4
    rw [show ((1 : ℚ) - 5) = -4 by norm_num,
      spec_min_image_of_le (by rw [abs_neg, abs_of_pos] <;> norm_num)]

/-- C2: for equal-shape arrays of rank at least 3 and any rational spring
constant, `calc_posres_forces` returns
`spring_constant * (traj_xyz - ref_xyz)` elementwise, with no sign
flip. -/
theorem calc_posres_forces_linear (traj_xyz ref_xyz : NDArray)
    (spring_constant : ℚ)
    (hrank : 3 ≤ traj_xyz.ndim) (hshape : traj_xyz.shape = ref_xyz.shape) :
    calc_posres_forces traj_xyz ref_xyz spring_constant =
      .ok ⟨traj_xyz.shape, fun idx =>
        spring_constant * (traj_xyz.data idx - ref_xyz.data idx)⟩ :=
  calc_posres_forces_ok_of_valid traj_xyz ref_xyz spring_constant
    ⟨hrank, hshape⟩

/-- Witness for C2, on the inputs of `test_spring_constant_calculation`:
`traj_xyz` constant 5, `ref_xyz` constant 1 and `spring_constant = 10`
give force 40 at every entry; `traj_xyz` constant `-3` instead gives
`-40`. -/
theorem calc_posres_forces_linear_witness :
    (3 ≤ (constArr3 5).ndim ∧ (constArr3 5).shape = (constArr3 1).shape) ∧
    calc_posres_forces (constArr3 5) (constArr3 1) 10 =
      .ok ⟨(constArr3 5).shape, fun idx =>
        10 * ((constArr3 5).data idx - (constArr3 1).data idx)⟩ ∧
    calc_posres_forces (constArr3 (-3)) (constArr3 1) 10 =
      .ok ⟨(constArr3 (-3)).shape, fun idx =>
        10 * ((constArr3 (-3)).data idx - (constArr3 1).data idx)⟩ ∧
    (10 : ℚ) * ((constArr3 5).data [0, 0, 0] - (constArr3 1).data [0, 0, 0]) = 40 ∧
    (10 : ℚ) * ((constArr3 (-3)).data [1, 1, 2] - (constArr3 1).data [1, 1, 2]) = -40 :=
  ⟨⟨by decide, by decide⟩,
   calc_posres_forces_linear (constArr3 5) (constArr3 1) 10
     (by decide) (by decide),
   calc_posres_forces_linear (constArr3 (-3)) (constArr3 1) 10
     (by decide) (by decide),
   by show (10 : ℚ) * (5 - 1) = 40; norm_num,
   by show (10 : ℚ) * (-3 - 1) = -40; norm_num⟩

/-- C3: on every valid input, `scale_box_coordinates` returns the array
with `scaled_xyz[f,p,a] = traj_xyz[f,p,a] * traj_dims[f,a] / ref_dims[a]`
for every in-range frame `f`, particle `p` and axis `a`. -/
theorem scale_box_coordinates_componentwise (t d r : NDArray)
    (h : validScaleInput t d r) :
    ∃ res, scale_box_coordinates t d r = .ok res ∧
      ∀ f < t.dim 0, ∀ p < t.dim 1, ∀ a < t.dim 2,
        res.data [f, p, a] =
          t.data [f, p, a] * d.data [f, a] / r.data [a] := by
  refine ⟨_, scale_box_coordinates_ok_of_valid t d r h, ?_⟩
  intro f _ p _ a _
  exact (mul_div_assoc _ _ _).symm

/-- Witness for C3, on the inputs of `test_scaling`: `ref_dims = [1,6,3]`,
`traj_dims` constant `[3,3,3]`, coordinates `[15,10,5]` scale to
`[45,5,5]`. -/
theorem scale_box_coordinates_componentwise_witness :
    validScaleInput testCoords testTrajDims testRefDims ∧
    ∃ res, scale_box_coordinates testCoords testTrajDims testRefDims = .ok res ∧
      res.data [0, 0, 0] = 45 ∧ res.data [0, 0, 1] = 5 ∧
      res.data [0, 0, 2] = 5 := by
  obtain ⟨res, hok, hcomp⟩ :=
    scale_box_coordinates_componentwise testCoords testTrajDims testRefDims
      (by decide)
  refine ⟨by decide, res, hok, ?_, ?_, ?_⟩
  · rw [hcomp 0 (by decide) 0 (by decide) 0 (by decide)]
    show (15 : ℚ) * 3 / 1 = 45; norm_num
  · rw [hcomp 0 (by decide) 0 (by decide) 1 (by decide)]
    show (10 : ℚ) * 3 / 6 = 5; norm_num
  · rw [hcomp 0 (by decide) 0 (by decide) 2 (by decide)]
    show (5 : ℚ) * 3 / 3 = 5; norm_num

/-- C4: the function `calc_vectors` checks its five shape conditions in source order
and reports exactly the first violated one; later conditions cannot mask
an earlier failure, and when none fails no error is raised. -/
theorem calc_vectors_validation_order (o d b : NDArray) :
    (calc_vectors o d b = .error .originRank ↔ o.ndim ≠ 3) ∧
    (calc_vectors o d b = .error .boxdimsRank ↔ o.ndim = 3 ∧ b.ndim ≠ 2) ∧
    (calc_vectors o d b = .error .shapeMismatch ↔
      o.ndim = 3 ∧ b.ndim = 2 ∧ o.shape ≠ d.shape) ∧
    (calc_vectors o d b = .error .frameMismatch ↔
      o.ndim = 3 ∧ b.ndim = 2 ∧ o.shape = d.shape ∧ o.dim 0 ≠ b.dim 0) ∧
    (calc_vectors o d b = .error .dimMismatch ↔
      o.ndim = 3 ∧ b.ndim = 2 ∧ o.shape = d.shape ∧ o.dim 0 = b.dim 0 ∧
        o.dim 2 ≠ b.dim 1) ∧
    ((∃ res, calc_vectors o d b = .ok res) ↔ validVecInput o d b) := by
  unfold calc_vectors validVecInput
  by_cases h1 : o.ndim = 3 <;> by_cases h2 : b.ndim = 2 <;>
    by_cases h3 : o.shape = d.shape <;> by_cases h4 : o.dim 0 = b.dim 0 <;>
    by_cases h5 : o.dim 2 = b.dim 1 <;>
    simp [h1, h2, h3, h4, h5]

/-- A rank-1 shape is the singleton list of its only entry. -/
lemma shape_eq_of_ndim_one (a : NDArray) (h : a.ndim = 1) :
    a.shape = [a.dim 0] := by
  unfold NDArray.ndim at h
  unfold NDArray.dim
  match hs : a.shape with
  | [x] => simp [List.getD]
  | [] => rw [hs] at h; simp at h
  | x :: y :: l => rw [hs] at h; simp at h

/-- C5: at the documented ranks (3, 2, 1), `scale_box_coordinates` raises
the final-axis `ValueError` exactly when a final axis differs from 3, the
frame-count `ValueError` exactly when the final axes are fine but the
frame counts differ, succeeds otherwise, and never fails in any other way
(in particular the `IndexError` of an out-of-range `shape` access cannot
occur at these ranks). -/
theorem scale_box_coordinates_validation (t d r : NDArray)
    (h1 : t.ndim = 3) (h2 : d.ndim = 2) (h3 : r.ndim = 1) :
    (scale_box_coordinates t d r = .error .lastAxisErr ↔
      (t.dim 2 ≠ 3 ∨ d.dim 1 ≠ 3 ∨ r.dim 0 ≠ 3)) ∧
    (scale_box_coordinates t d r = .error .frameErr ↔
      (t.dim 2 = 3 ∧ d.dim 1 = 3 ∧ r.dim 0 = 3 ∧ t.dim 0 ≠ d.dim 0)) ∧
    ((∃ res, scale_box_coordinates t d r = .ok res) ↔
      (t.dim 2 = 3 ∧ d.dim 1 = 3 ∧ r.dim 0 = 3 ∧ t.dim 0 = d.dim 0)) ∧
    scale_box_coordinates t d r ≠ .error .indexErr := by
  rw [scale_box_coordinates, get?_two_of_ndim_three t h1,
    get?_one_of_ndim_two d h2, shape_eq_of_ndim_one r h3]
  by_cases c1 : t.dim 2 = 3 <;> by_cases c2 : d.dim 1 = 3 <;>
    by_cases c3 : r.dim 0 = 3 <;> by_cases c4 : t.dim 0 = d.dim 0 <;>
    simp [c1, c2, c3, c4]

/-- An array `ref_dims` of rank 1 but size 2, as in `test_dims_mismatch_error`. -/
def badRefDims : NDArray := ⟨[2], fun _ => 1⟩

/-- Witness for C5: good coordinates and box dimensions with a size-2
`ref_dims` raise the final-axis `ValueError`. -/
theorem scale_box_coordinates_validation_witness :
    (testCoords.ndim = 3 ∧ testTrajDims.ndim = 2 ∧ badRefDims.ndim = 1) ∧
    scale_box_coordinates testCoords testTrajDims badRefDims =
      .error .lastAxisErr :=
  ⟨⟨by decide, by decide, by decide⟩,
   (scale_box_coordinates_validation testCoords testTrajDims badRefDims
     (by decide) (by decide) (by decide)).1.mpr (by decide)⟩

/-- C6: the function `calc_posres_forces` raises a `ValueError` if and only if one of
the two inputs has rank below 3 or the two full shapes differ; equal-shape
inputs of rank at least 3 never raise. -/
theorem calc_posres_forces_error_iff (t r : NDArray) (k : ℚ) :
    (∃ e, calc_posres_forces t r k = .error e) ↔
      (t.ndim < 3 ∨ r.ndim < 3 ∨ t.shape ≠ r.shape) := by
  unfold calc_posres_forces
  by_cases h1 : t.ndim < 3 <;> by_cases h2 : r.ndim < 3 <;>
    by_cases h3 : t.shape = r.shape <;> simp [h1, h2, h3]

/-- C7: on valid inputs, each of the three calculators returns an array
whose shape equals the shape of its primary positional input. -/
theorem shape_preservation (o d b t td tr pt pr : NDArray) (k : ℚ)
    (hv : validVecInput o d b) (hs : validScaleInput t td tr)
    (hp : validPosresInput pt pr) :
    (∃ res, calc_vectors o d b = .ok res ∧ res.shape = o.shape) ∧
    (∃ res, scale_box_coordinates t td tr = .ok res ∧
      res.shape = t.shape) ∧
    (∃ res, calc_posres_forces pt pr k = .ok res ∧
      res.shape = pt.shape) :=
  ⟨⟨_, calc_vectors_ok_of_valid o d b hv, rfl⟩,
   ⟨_, scale_box_coordinates_ok_of_valid t td tr hs, rfl⟩,
   ⟨_, calc_posres_forces_ok_of_valid pt pr k hp, rfl⟩⟩

/-- Witness for C7 on the unit-test fixtures. -/
theorem shape_preservation_witness :
    (validVecInput testPMid testPHigh testBoxdims ∧
     validScaleInput testCoords testTrajDims testRefDims ∧
     validPosresInput (constArr3 5) (constArr3 1)) ∧
    (∃ res, calc_vectors testPMid testPHigh testBoxdims = .ok res ∧
      res.shape = testPMid.shape) ∧
    (∃ res, scale_box_coordinates testCoords testTrajDims testRefDims =
      .ok res ∧ res.shape = testCoords.shape) ∧
    (∃ res, calc_posres_forces (constArr3 5) (constArr3 1) 10 = .ok res ∧
      res.shape = (constArr3 5).shape) :=
  ⟨⟨by decide, by decide, by decide⟩,
   shape_preservation testPMid testPHigh testBoxdims testCoords
     testTrajDims testRefDims (constArr3 5) (constArr3 1) 10
     (by decide) (by decide) (by decide)⟩

/-- C9: on every valid input, swapping origin and destination negates
every component of the result of `calc_vectors`, corrected components
included. -/
theorem calc_vectors_antisymmetry (o d b : NDArray)
    (h : validVecInput o d b) :
    ∃ fwd bwd, calc_vectors o d b = .ok fwd ∧
      calc_vectors d o b = .ok bwd ∧
      ∀ idx, fwd.data idx = -(bwd.data idx) := by
  refine ⟨_, _, calc_vectors_ok_of_valid o d b h,
    calc_vectors_ok_of_valid d o b (validVecInput_symm o d b h), ?_⟩
  intro idx
  show vec_component (d.data idx - o.data idx) _ =
    -(vec_component (o.data idx - d.data idx) _)
  rw [show o.data idx - d.data idx = -(d.data idx - o.data idx) by ring,
    vec_component_neg, neg_neg]

/-- Witness for C9: antisymmetry on the `test_for_correct_vectors`
fixture, where the periodic-image correction fires. -/
theorem calc_vectors_antisymmetry_witness :
    validVecInput testPLow testPHigh testBoxdims ∧
    ∃ fwd bwd, calc_vectors testPLow testPHigh testBoxdims = .ok fwd ∧
      calc_vectors testPHigh testPLow testBoxdims = .ok bwd ∧
      ∀ idx, fwd.data idx = -(bwd.data idx) :=
  ⟨by decide,
   calc_vectors_antisymmetry testPLow testPHigh testBoxdims (by decide)⟩

/-- C10: on every valid input whose raw components all lie within one
periodic image (`|destination - origin| ≤ 1.5 * box_dim`, per frame and
axis), every component of the result of `calc_vectors` has absolute value
at most half the box dimension for its frame and axis. -/
theorem calc_vectors_half_box_bound (o d b : NDArray)
    (h : validVecInput o d b)
    (hraw : ∀ f < o.dim 0, ∀ p < o.dim 1, ∀ a < o.dim 2,
      |d.data [f, p, a] - o.data [f, p, a]| ≤ 3 / 2 * b.data [f, a]) :
    ∃ res, calc_vectors o d b = .ok res ∧
      ∀ f < o.dim 0, ∀ p < o.dim 1, ∀ a < o.dim 2,
        |res.data [f, p, a]| ≤ b.data [f, a] / 2 := by
  refine ⟨_, calc_vectors_ok_of_valid o d b h, ?_⟩
  intro f hf p hp a ha
  show |vec_component (d.data [f, p, a] - o.data [f, p, a])
    (b.data [f, a])| ≤ b.data [f, a] / 2
  exact abs_vec_component_le _ _ (hraw f hf p hp a ha)

/-- Witness for C10: from `p_mid = 5` to `p_low = 1` the raw components
`-4` are within `1.5` boxes of both test frames, and the outputs stay
within the half box. -/
theorem calc_vectors_half_box_bound_witness :
    validVecInput testPMid testPLow testBoxdims ∧
    ∃ res, calc_vectors testPMid testPLow testBoxdims = .ok res ∧
      ∀ f < testPMid.dim 0, ∀ p < testPMid.dim 1, ∀ a < testPMid.dim 2,
        |res.data [f, p, a]| ≤ testBoxdims.data [f, a] / 2 := by
  refine ⟨by decide, calc_vectors_half_box_bound testPMid testPLow
    testBoxdims (by decide) ?_⟩
  intro f hf p hp a ha
  have hf2 : f < 2 := hf
  rw [abs_le]
  interval_cases f <;> constructor <;>
    norm_num [testPMid, testPLow, testBoxdims, constArr3]

/-! Buffer-level semantics, for the non-mutation claim.

numpy's buffer behaviour made explicit: arrays live at numeric ids in a
store, every arithmetic operation (`-`, `abs`, `*`, `/`, comparison)
allocates a fresh buffer, and the only in-place operation in the whole
source is the masked assignment `vecs[mask] = ...` in `calc_vectors`,
which writes to the buffer holding `vecs` — itself freshly allocated by
`p_destination - p_origin`.  Read-only temporaries are folded into pure
index functions; only buffers that are returned or written to are given
ids, which is enough to decide whether any *input* buffer changes. -/

/-- A heap of array buffers: `arrays i` is the buffer at id `i`; ids
at or above `next` are free. -/
structure Store where
  arrays : Nat → NDArray
  next : Nat

/-- Allocate a fresh buffer (at id `next`). -/
def Store.alloc (s : Store) (a : NDArray) : Store :=
  ⟨Function.update s.arrays s.next a, s.next + 1⟩

/-- Overwrite the buffer at id `i` in place. -/
def Store.write (s : Store) (i : Nat) (a : NDArray) : Store :=
  ⟨Function.update s.arrays i a, s.next⟩

/-- numpy's masked assignment `a[mask] = src[mask]`: entries where the
boolean mask holds take the source's value, the rest keep theirs. -/
def maskedSet (a : NDArray) (mask : List Nat → Bool)
    (src : List Nat → ℚ) : NDArray :=
  ⟨a.shape, fun idx => if mask idx then src idx else a.data idx⟩

/-- The function `calc_vectors` at buffer level.  Validation reads only shapes.  The
temporaries `boxdims_reshaped`, `boxdims_midpoint`, `veclengths` and the
three boolean mask arrays are fresh and never written to, so they appear
as pure index functions; `vecs` is the fresh buffer allocated by
`p_destination - p_origin` and is the target of the two masked
assignments. -/
def calc_vectors_prog (s : Store) (oId dId bId : Nat) :
    Except VecErr (Nat × Store) :=
  if (s.arrays oId).ndim ≠ 3 then .error .originRank
  else if (s.arrays bId).ndim ≠ 2 then .error .boxdimsRank
  else if (s.arrays oId).shape ≠ (s.arrays dId).shape then
    .error .shapeMismatch
  else if (s.arrays oId).dim 0 ≠ (s.arrays bId).dim 0 then
    .error .frameMismatch
  else if (s.arrays oId).dim 2 ≠ (s.arrays bId).dim 1 then
    .error .dimMismatch
  else
    let raw : List Nat → ℚ := fun idx =>
      (s.arrays dId).data idx - (s.arrays oId).data idx
    let bres : List Nat → ℚ := fun idx =>
      (s.arrays bId).data [idx.getD 0 0, idx.getD 2 0]
    let veclengths : List Nat → ℚ := fun idx => |raw idx|
    let gtMask : List Nat → Bool := fun idx =>
      decide (veclengths idx > bres idx / 2)
    let posMask : List Nat → Bool := fun idx => decide (0 < raw idx)
    let negMask : List Nat → Bool := fun idx => decide (raw idx < 0)
    let vecsId := s.next
    let s1 := s.alloc ⟨(s.arrays oId).shape, raw⟩
    let s2 := s1.write vecsId (maskedSet (s1.arrays vecsId)
      (fun idx => gtMask idx && posMask idx)
      (fun idx => -(bres idx - veclengths idx)))
    let s3 := s2.write vecsId (maskedSet (s2.arrays vecsId)
      (fun idx => gtMask idx && negMask idx)
      (fun idx => bres idx - veclengths idx))
    .ok (vecsId, s3)

/-- The buffer-level `calc_vectors` on valid input: it returns the fresh
id `s.next`, leaves every previously allocated buffer untouched, and the
returned buffer holds exactly the value-level result. -/
lemma calc_vectors_prog_spec (s : Store) (oId dId bId : Nat)
    (h : validVecInput (s.arrays oId) (s.arrays dId) (s.arrays bId)) :
    ∃ s', calc_vectors_prog s oId dId bId = .ok (s.next, s') ∧
      s'.next = s.next + 1 ∧
      (∀ i, i < s.next → s'.arrays i = s.arrays i) ∧
      calc_vectors (s.arrays oId) (s.arrays dId) (s.arrays bId) =
        .ok (s'.arrays s.next) := by
  obtain ⟨h1, h2, h3, h4, h5⟩ := h
  rw [calc_vectors_prog, if_neg (by simp [h1]), if_neg (by simp [h2]),
    if_neg (by simp [h3]), if_neg (by simp [h4]), if_neg (by simp [h5])]
  refine ⟨_, rfl, rfl, ?_, ?_⟩
  · intro i hi
    have hne : i ≠ s.next := Nat.ne_of_lt hi
    simp only [Store.alloc, Store.write]
    rw [Function.update_noteq hne, Function.update_noteq hne,
      Function.update_noteq hne]
  · rw [calc_vectors_ok_of_valid _ _ _ ⟨h1, h2, h3, h4, h5⟩]
    simp only [Store.alloc, Store.write, Function.update_same]
    refine congrArg Except.ok (congrArg (NDArray.mk _) ?_)
    funext idx
    simp only [maskedSet, Bool.and_eq_true, decide_eq_true_eq]
    unfold vec_component
    rfl

/-- The function `scale_box_coordinates` at buffer level: two fresh allocations
(`scale_factor = traj_dims / ref_dims`, then the returned product array)
and no write to any existing buffer. -/
def scale_box_coordinates_prog (s : Store) (tId dId rId : Nat) :
    Except ScaleErr (Nat × Store) :=
  match (s.arrays tId).shape.get? 2 with
  | none => .error .indexErr
  | some sz2 =>
    if sz2 ≠ 3 then .error .lastAxisErr
    else
      match (s.arrays dId).shape.get? 1 with
      | none => .error .indexErr
      | some sz1 =>
        if sz1 ≠ 3 ∨ (s.arrays rId).shape ≠ [3] then .error .lastAxisErr
        else if (s.arrays tId).dim 0 ≠ (s.arrays dId).dim 0 then
          .error .frameErr
        else
          let sfId := s.next
          let s1 := s.alloc ⟨(s.arrays dId).shape, fun idx =>
            (s.arrays dId).data idx / (s.arrays rId).data [idx.getD 1 0]⟩
          let s2 := s1.alloc ⟨(s.arrays tId).shape, fun idx =>
            (s.arrays tId).data idx *
              (s1.arrays sfId).data [idx.getD 0 0, idx.getD 2 0]⟩
          .ok (s1.next, s2)

/-- The buffer-level `scale_box_coordinates` on valid input: fresh result
id, previously allocated buffers untouched, and the returned buffer holds
the value-level result. -/
lemma scale_box_coordinates_prog_spec (s : Store) (tId dId rId : Nat)
    (h : validScaleInput (s.arrays tId) (s.arrays dId) (s.arrays rId)) :
    ∃ s', scale_box_coordinates_prog s tId dId rId =
        .ok (s.next + 1, s') ∧
      s'.next = s.next + 2 ∧
      (∀ i, i < s.next → s'.arrays i = s.arrays i) ∧
      scale_box_coordinates (s.arrays tId) (s.arrays dId)
          (s.arrays rId) = .ok (s'.arrays (s.next + 1)) := by
  obtain ⟨h1, h2, h3, h4, h5, h6⟩ := h
  have hc1 : ¬((s.arrays tId).dim 2 ≠ 3) := fun hx => hx h3
  have hc2 : ¬((s.arrays dId).dim 1 ≠ 3 ∨ (s.arrays rId).shape ≠ [3]) := by
    rw [not_or]
    exact ⟨fun hx => hx h4, fun hx => hx h5⟩
  have hc3 : ¬((s.arrays tId).dim 0 ≠ (s.arrays dId).dim 0) :=
    fun hx => hx h6
  rw [scale_box_coordinates_prog, get?_two_of_ndim_three _ h1,
    get?_one_of_ndim_two _ h2]
  dsimp only
  rw [if_neg hc1, if_neg hc2, if_neg hc3]
  refine ⟨_, rfl, rfl, ?_, ?_⟩
  · intro i hi
    have hne1 : i ≠ s.next := Nat.ne_of_lt hi
    have hne2 : i ≠ s.next + 1 := Nat.ne_of_lt (Nat.lt_succ_of_lt hi)
    simp only [Store.alloc]
    rw [Function.update_noteq hne2, Function.update_noteq hne1]
  · rw [scale_box_coordinates_ok_of_valid _ _ _ ⟨h1, h2, h3, h4, h5, h6⟩]
    simp only [Store.alloc, Function.update_same]
    refine congrArg Except.ok (congrArg (NDArray.mk _) ?_)
    funext idx
    rfl

/-- The function `calc_posres_forces` at buffer level: two fresh allocations
(`dists = traj_xyz - ref_xyz`, then `spring_constant * dists`) and no
write to any existing buffer. -/
def calc_posres_forces_prog (s : Store) (tId rId : Nat) (k : ℚ) :
    Except PosresErr (Nat × Store) :=
  if (s.arrays tId).ndim < 3 ∨ (s.arrays rId).ndim < 3 then
    .error .rankErr
  else if (s.arrays tId).shape ≠ (s.arrays rId).shape then
    .error .shapeErr
  else
    let distsId := s.next
    let s1 := s.alloc ⟨(s.arrays tId).shape, fun idx =>
      (s.arrays tId).data idx - (s.arrays rId).data idx⟩
    let s2 := s1.alloc ⟨(s.arrays tId).shape, fun idx =>
      k * (s1.arrays distsId).data idx⟩
    .ok (s1.next, s2)

/-- The buffer-level `calc_posres_forces` on valid input: fresh result
id, previously allocated buffers untouched, and the returned buffer holds
the value-level result. -/
lemma calc_posres_forces_prog_spec (s : Store) (tId rId : Nat) (k : ℚ)
    (h : validPosresInput (s.arrays tId) (s.arrays rId)) :
    ∃ s', calc_posres_forces_prog s tId rId k = .ok (s.next + 1, s') ∧
      s'.next = s.next + 2 ∧
      (∀ i, i < s.next → s'.arrays i = s.arrays i) ∧
      calc_posres_forces (s.arrays tId) (s.arrays rId) k =
        .ok (s'.arrays (s.next + 1)) := by
  obtain ⟨h1, h2⟩ := h
  have hr : 3 ≤ (s.arrays rId).ndim := by
    unfold NDArray.ndim at h1 ⊢; rw [← h2]; exact h1
  have hc1 : ¬((s.arrays tId).ndim < 3 ∨ (s.arrays rId).ndim < 3) := by
    rw [not_or]
    exact ⟨Nat.not_lt.mpr h1, Nat.not_lt.mpr hr⟩
  have hc2 : ¬((s.arrays tId).shape ≠ (s.arrays rId).shape) :=
    fun hx => hx h2
  rw [calc_posres_forces_prog, if_neg hc1, if_neg hc2]
  refine ⟨_, rfl, rfl, ?_, ?_⟩
  · intro i hi
    have hne1 : i ≠ s.next := Nat.ne_of_lt hi
    have hne2 : i ≠ s.next + 1 := Nat.ne_of_lt (Nat.lt_succ_of_lt hi)
    simp only [Store.alloc]
    rw [Function.update_noteq hne2, Function.update_noteq hne1]
  · rw [calc_posres_forces_ok_of_valid _ _ _ ⟨h1, h2⟩]
    simp only [Store.alloc, Function.update_same]

/-- C8: at buffer level, each of the three calculators, run on any valid
input (each calculator is quantified over its own store and ids,
independently of the other two), leaves every previously allocated buffer
(the input arrays in particular) unchanged — the result lives in a newly
allocated buffer — and running the same calculator again on the store it
produced yields a bit-identical output buffer. -/
theorem calculators_no_mutation_deterministic
    (sv : Store) (oId dId bId : Nat)
    (ho : oId < sv.next) (hd : dId < sv.next) (hb : bId < sv.next)
    (hvec : validVecInput (sv.arrays oId) (sv.arrays dId) (sv.arrays bId))
    (ss : Store) (tId dmId rId : Nat)
    (ht : tId < ss.next) (hdm : dmId < ss.next) (hrf : rId < ss.next)
    (hsc : validScaleInput (ss.arrays tId) (ss.arrays dmId)
      (ss.arrays rId))
    (sp : Store) (pId qId : Nat) (k : ℚ)
    (hp : pId < sp.next) (hq : qId < sp.next)
    (hpr : validPosresInput (sp.arrays pId) (sp.arrays qId)) :
    (∃ v1 s1 v2 s2, calc_vectors_prog sv oId dId bId = .ok (v1, s1) ∧
      (∀ i, i < sv.next → s1.arrays i = sv.arrays i) ∧
      calc_vectors_prog s1 oId dId bId = .ok (v2, s2) ∧
      (∀ i, i < sv.next → s2.arrays i = sv.arrays i) ∧
      s2.arrays v2 = s1.arrays v1) ∧
    (∃ v1 s1 v2 s2,
      scale_box_coordinates_prog ss tId dmId rId = .ok (v1, s1) ∧
      (∀ i, i < ss.next → s1.arrays i = ss.arrays i) ∧
      scale_box_coordinates_prog s1 tId dmId rId = .ok (v2, s2) ∧
      (∀ i, i < ss.next → s2.arrays i = ss.arrays i) ∧
      s2.arrays v2 = s1.arrays v1) ∧
    (∃ v1 s1 v2 s2, calc_posres_forces_prog sp pId qId k = .ok (v1, s1) ∧
      (∀ i, i < sp.next → s1.arrays i = sp.arrays i) ∧
      calc_posres_forces_prog s1 pId qId k = .ok (v2, s2) ∧
      (∀ i, i < sp.next → s2.arrays i = sp.arrays i) ∧
      s2.arrays v2 = s1.arrays v1) := by
  refine ⟨?_, ?_, ?_⟩
  · obtain ⟨sA, hOkA, hNxA, hKpA, hValA⟩ :=
      calc_vectors_prog_spec sv oId dId bId hvec
    have ho1 : sA.arrays oId = sv.arrays oId := hKpA oId ho
    have hd1 : sA.arrays dId = sv.arrays dId := hKpA dId hd
    have hb1 : sA.arrays bId = sv.arrays bId := hKpA bId hb
    have hvec1 : validVecInput (sA.arrays oId) (sA.arrays dId)
        (sA.arrays bId) := by
      rw [ho1, hd1, hb1]; exact hvec
    obtain ⟨sB, hOkB, hNxB, hKpB, hValB⟩ :=
      calc_vectors_prog_spec sA oId dId bId hvec1
    refine ⟨sv.next, sA, sA.next, sB, hOkA, hKpA, hOkB, ?_, ?_⟩
    · intro i hi
      rw [hKpB i (by omega), hKpA i hi]
    · rw [ho1, hd1, hb1] at hValB
      exact (Except.ok.inj (hValA.symm.trans hValB)).symm
  · obtain ⟨sA, hOkA, hNxA, hKpA, hValA⟩ :=
      scale_box_coordinates_prog_spec ss tId dmId rId hsc
    have ht1 : sA.arrays tId = ss.arrays tId := hKpA tId ht
    have hdm1 : sA.arrays dmId = ss.arrays dmId := hKpA dmId hdm
    have hr1 : sA.arrays rId = ss.arrays rId := hKpA rId hrf
    have hsc1 : validScaleInput (sA.arrays tId) (sA.arrays dmId)
        (sA.arrays rId) := by
      rw [ht1, hdm1, hr1]; exact hsc
    obtain ⟨sB, hOkB, hNxB, hKpB, hValB⟩ :=
      scale_box_coordinates_prog_spec sA tId dmId rId hsc1
    refine ⟨ss.next + 1, sA, sA.next + 1, sB, hOkA, hKpA, hOkB, ?_, ?_⟩
    · intro i hi
      rw [hKpB i (by omega), hKpA i hi]
    · rw [ht1, hdm1, hr1] at hValB
      exact (Except.ok.inj (hValA.symm.trans hValB)).symm
  · obtain ⟨sA, hOkA, hNxA, hKpA, hValA⟩ :=
      calc_posres_forces_prog_spec sp pId qId k hpr
    have hp1 : sA.arrays pId = sp.arrays pId := hKpA pId hp
    have hq1 : sA.arrays qId = sp.arrays qId := hKpA qId hq
    have hpr1 : validPosresInput (sA.arrays pId) (sA.arrays qId) := by
      rw [hp1, hq1]; exact hpr
    obtain ⟨sB, hOkB, hNxB, hKpB, hValB⟩ :=
      calc_posres_forces_prog_spec sA pId qId k hpr1
    refine ⟨sp.next + 1, sA, sA.next + 1, sB, hOkA, hKpA, hOkB, ?_, ?_⟩
    · intro i hi
      rw [hKpB i (by omega), hKpA i hi]
    · rw [hp1, hq1] at hValB
      exact (Except.ok.inj (hValA.symm.trans hValB)).symm

/-- A 2 × 2 × 2 position array (two spatial dimensions), constant 1. -/
def testPLow2D : NDArray := ⟨[2, 2, 2], fun _ => 1⟩

/-- A 2 × 2 × 2 position array (two spatial dimensions), constant 9.4. -/
def testPHigh2D : NDArray := ⟨[2, 2, 2], fun _ => 47 / 5⟩

/-- A 2 × 2 box-dimension array for the 2D position arrays. -/
def testBoxdims2D : NDArray := ⟨[2, 2], fun _ => 10⟩

/-- A rank-4 coordinate array, constant 5. -/
def testTraj4D : NDArray := ⟨[1, 2, 3, 4], fun _ => 5⟩

/-- A rank-4 coordinate array, constant 1. -/
def testRef4D : NDArray := ⟨[1, 2, 3, 4], fun _ => 1⟩

/-- An eight-buffer store holding: a 2D-dims `calc_vectors` input triple
(ids 0-2), the documented-rank `scale_box_coordinates` fixtures
(ids 3-5), and a rank-4 `calc_posres_forces` input pair (ids 6-7). -/
def testStore : Store :=
  ⟨fun i =>
    if i = 0 then testPLow2D else if i = 1 then testPHigh2D
    else if i = 2 then testBoxdims2D else if i = 3 then testCoords
    else if i = 4 then testTrajDims else if i = 5 then testRefDims
    else if i = 6 then testTraj4D else testRef4D, 8⟩

/-- Witness for C8 on the eight-buffer test store; the `calc_vectors`
part runs on two-dimensional boxes and the `calc_posres_forces` part on
rank-4 arrays. -/
theorem calculators_no_mutation_deterministic_witness :
    (0 < testStore.next ∧ 1 < testStore.next ∧ 2 < testStore.next ∧
     3 < testStore.next ∧ 4 < testStore.next ∧ 5 < testStore.next ∧
     6 < testStore.next ∧ 7 < testStore.next ∧
     validVecInput (testStore.arrays 0) (testStore.arrays 1)
       (testStore.arrays 2) ∧
     validScaleInput (testStore.arrays 3) (testStore.arrays 4)
       (testStore.arrays 5) ∧
     validPosresInput (testStore.arrays 6) (testStore.arrays 7)) ∧
    (∃ v1 s1 v2 s2, calc_vectors_prog testStore 0 1 2 = .ok (v1, s1) ∧
      (∀ i, i < testStore.next → s1.arrays i = testStore.arrays i) ∧
      calc_vectors_prog s1 0 1 2 = .ok (v2, s2) ∧
      (∀ i, i < testStore.next → s2.arrays i = testStore.arrays i) ∧
      s2.arrays v2 = s1.arrays v1) ∧
    (∃ v1 s1 v2 s2,
      scale_box_coordinates_prog testStore 3 4 5 = .ok (v1, s1) ∧
      (∀ i, i < testStore.next → s1.arrays i = testStore.arrays i) ∧
      scale_box_coordinates_prog s1 3 4 5 = .ok (v2, s2) ∧
      (∀ i, i < testStore.next → s2.arrays i = testStore.arrays i) ∧
      s2.arrays v2 = s1.arrays v1) ∧
    (∃ v1 s1 v2 s2,
      calc_posres_forces_prog testStore 6 7 1000 = .ok (v1, s1) ∧
      (∀ i, i < testStore.next → s1.arrays i = testStore.arrays i) ∧
      calc_posres_forces_prog s1 6 7 1000 = .ok (v2, s2) ∧
      (∀ i, i < testStore.next → s2.arrays i = testStore.arrays i) ∧
      s2.arrays v2 = s1.arrays v1) :=
  ⟨⟨by decide, by decide, by decide, by decide, by decide, by decide,
    by decide, by decide, by decide, by decide, by decide⟩,
   calculators_no_mutation_deterministic testStore 0 1 2
     (by decide) (by decide) (by decide) (by decide)
     testStore 3 4 5
     (by decide) (by decide) (by decide) (by decide)
     testStore 6 7 1000
     (by decide) (by decide) (by decide)⟩


end DummyParticles
